import Mathlib

/-!
Verification of the `useMLflowDarkTheme` hook
(`mlflow/server/js/src/common/hooks/useMLflowDarkTheme.tsx`).

The hook is a theme-preference controller: it reads an initial dark-mode
boolean from `localStorage` (falling back to the `prefers-color-scheme`
media query), and a `useEffect` synchronizes the boolean to a CSS class on
`document.body` and back to `localStorage` on every value change,
including the initial mount.

The embedding models the browser environment explicitly:
`localStorage` as an association list of string keys to string values,
`document.body.classList` as a list of class-name strings, and the media
query result as a boolean read at mount time.  The React state cell and
its setter (`React.Dispatch<React.SetStateAction<boolean>>`) are modelled
by explicit state passing; React bails out of re-rendering (and hence of
re-running the effect) when the state is set to its current value.
-/

namespace MLflowDarkTheme

/-- `const darkModePrefLocalStorageKey = '_mlflow_dark_mode_toggle_enabled'`. -/
def darkModePrefLocalStorageKey : String := "_mlflow_dark_mode_toggle_enabled"

/-- `const darkModeBodyClassName = 'dark-mode'`. -/
def darkModeBodyClassName : String := "dark-mode"

/-- The browser `localStorage`: a finite map from string keys to string
values, modelled as an association list (first binding of a key wins). -/
abbrev LocalStorage := List (String × String)

/-- `localStorage.getItem(k)`: the value of the first binding of `k`,
or `none` when the key is absent. -/
def getItem : LocalStorage → String → Option String
  | [], _ => none
  | (k0, v0) :: rest, k => if k0 = k then some v0 else getItem rest k

/-- `localStorage.setItem(k, v)`: overwrite the first binding of `k`,
or append a new binding when the key is absent. -/
def setItem : LocalStorage → String → String → LocalStorage
  | [], k, v => [(k, v)]
  | (k0, v0) :: rest, k, v =>
    if k0 = k then (k, v) :: rest else (k0, v0) :: setItem rest k v

/-- `element.classList.toggle(name, force)`: with `force = true` add the
class when missing; with `force = false` remove every occurrence. -/
def classListToggle (cs : List String) (name : String) (force : Bool) :
    List String :=
  if force then (if name ∈ cs then cs else cs ++ [name])
  else cs.filter (fun c => !(c == name))

/-- The browser-visible environment the hook reads and mutates:
`localStorage`, the class list of `document.body`, and the result of
`window.matchMedia('(prefers-color-scheme: dark)').matches`. -/
structure BrowserEnv where
  storage : LocalStorage
  bodyClasses : List String
  prefersDark : Bool
  deriving Repr, DecidableEq

/-- Whether `document.body` currently carries the dark marker class. -/
def darkClassOn (env : BrowserEnv) : Bool :=
  decide (darkModeBodyClassName ∈ env.bodyClasses)

/-- The `useState` lazy init function: return `true` when the stored
record is exactly the string `"true"`, otherwise return the media-query
signal (`matches || false`).  It is a pure read: the environment is
returned unchanged. -/
def useStateInit (env : BrowserEnv) : Bool × BrowserEnv :=
  if getItem env.storage darkModePrefLocalStorageKey = some "true" then
    (true, env)
  else
    (env.prefersDark || false, env)

/-- The initial value of the `isDarkTheme` state cell. -/
def initialIsDarkTheme (env : BrowserEnv) : Bool :=
  (useStateInit env).1

/-- The body of the `useEffect`: toggle the dark class on `document.body`
according to `isDarkTheme`, then persist `'true'` or `'false'` under the
fixed `localStorage` key. -/
def syncEffect (isDarkTheme : Bool) (env : BrowserEnv) : BrowserEnv :=
  { env with
    bodyClasses :=
      classListToggle env.bodyClasses darkModeBodyClassName isDarkTheme
    storage :=
      setItem env.storage darkModePrefLocalStorageKey
        (if isDarkTheme then "true" else "false") }

/-- State of a mounted hook instance: the React state cell plus the
browser environment. -/
structure HookState where
  isDarkTheme : Bool
  env : BrowserEnv
  deriving Repr, DecidableEq

/-- Mounting the hook: run the `useState` init function, then the
`useEffect` (effects run after the initial mount). -/
def mount (env : BrowserEnv) : HookState :=
  let p := useStateInit env
  { isDarkTheme := p.1, env := syncEffect p.1 p.2 }

/-- A `React.SetStateAction<boolean>`: either a direct boolean or an
updater function applied to the current value. -/
inductive SetStateAction where
  | direct (v : Bool)
  | updater (f : Bool → Bool)

/-- Resolve a `SetStateAction` against the current state value. -/
def applyAction : SetStateAction → Bool → Bool
  | .direct v, _ => v
  | .updater f, b => f b

/-- `setIsDarkTheme`: resolve the action; when the new value equals the
current one React bails out (no re-render, the `[isDarkTheme]`-guarded
effect does not re-run); otherwise the state updates and the effect runs
with the new value. -/
def setIsDarkTheme (a : SetStateAction) (s : HookState) : HookState :=
  let b := applyAction a s.isDarkTheme
  if b = s.isDarkTheme then s
  else { isDarkTheme := b, env := syncEffect b s.env }

/-- The first component of the returned triple: reading the current
preference yields the in-memory boolean and leaves the state untouched. -/
def getCurrentPreference (s : HookState) : Bool × HookState :=
  (s.isDarkTheme, s)

/-- A run of the controller: mount in `env`, then perform a sequence of
setter calls. -/
def run (env : BrowserEnv) (acts : List SetStateAction) : HookState :=
  acts.foldl (fun s a => setIsDarkTheme a s) (mount env)

/-- Continue a run from an arbitrary state. -/
def runFrom (s : HookState) (acts : List SetStateAction) : HookState :=
  acts.foldl (fun s a => setIsDarkTheme a s) s

/-- Replace the media-query signal inside a state (the host system
changing its colour-scheme preference after initialization). -/
def withSignal (p : Bool) (s : HookState) : HookState :=
  { s with env := { s.env with prefersDark := p } }

/-- The post-initialization synchronization invariant: the dark marker
class is on `document.body` exactly when the in-memory value is `true`,
and the stored record is the string encoding of the in-memory value. -/
def Synced (s : HookState) : Prop :=
  darkClassOn s.env = s.isDarkTheme ∧
  getItem s.env.storage darkModePrefLocalStorageKey =
    some (if s.isDarkTheme then "true" else "false")

instance (s : HookState) : Decidable (Synced s) := by
  unfold Synced; infer_instance

/-! ### Helper lemmas about the storage and class-list primitives -/

lemma getItem_setItem (s : LocalStorage) (k v k' : String) :
    getItem (setItem s k v) k' = if k = k' then some v else getItem s k' := by
  induction s with
  | nil => simp [setItem, getItem]
  | cons hd tl ih =>
    obtain ⟨k0, v0⟩ := hd
    simp only [setItem]
    by_cases h0 : k0 = k
    · subst h0
      by_cases h1 : k0 = k'
      · subst h1; simp [getItem]
      · simp [getItem, h1]
    · simp only [if_neg h0, getItem]
      by_cases h1 : k0 = k'
      · subst h1
        have hk : ¬ k = k0 := fun h => h0 h.symm
        simp [hk]
      · simp [h1, ih]

lemma getItem_setItem_self (s : LocalStorage) (k v : String) :
    getItem (setItem s k v) k = some v := by
  simp [getItem_setItem]

lemma getItem_setItem_other (s : LocalStorage) (k v k' : String)
    (h : k ≠ k') : getItem (setItem s k v) k' = getItem s k' := by
  simp [getItem_setItem, h]

lemma setItem_of_getItem (s : LocalStorage) (k v : String)
    (h : getItem s k = some v) : setItem s k v = s := by
  induction s with
  | nil => simp [getItem] at h
  | cons hd tl ih =>
    obtain ⟨k0, v0⟩ := hd
    simp only [getItem] at h
    simp only [setItem]
    by_cases h0 : k0 = k
    · subst h0
      rw [if_pos rfl] at h
      obtain rfl : v0 = v := Option.some.inj h
      simp
    · rw [if_neg h0] at h
      rw [if_neg h0, ih h]

lemma isSome_getItem_setItem (s : LocalStorage) (k v k' : String)
    (h : (getItem s k').isSome) : (getItem (setItem s k v) k').isSome := by
  rw [getItem_setItem]
  by_cases hk : k = k'
  · simp [hk]
  · simpa [hk] using h

lemma mem_classListToggle (cs : List String) (name : String) (force : Bool) :
    decide (name ∈ classListToggle cs name force) = force := by
  cases force with
  | true =>
    simp only [classListToggle, if_pos rfl]
    by_cases h : name ∈ cs
    · simp [h]
    · simp [h]
  | false =>
    simp only [classListToggle]
    simp [List.mem_filter]

lemma classListToggle_of_matching (cs : List String) (name : String)
    (force : Bool) (h : decide (name ∈ cs) = force) :
    classListToggle cs name force = cs := by
  cases force with
  | true =>
    have hm : name ∈ cs := of_decide_eq_true h
    simp [classListToggle, hm]
  | false =>
    have hm : name ∉ cs := of_decide_eq_false h
    simp only [classListToggle, if_neg Bool.false_ne_true]
    apply List.filter_eq_self.mpr
    intro a ha
    simp only [Bool.not_eq_eq_eq_not, Bool.not_true, beq_eq_false_iff_ne]
    exact fun hax => hm (hax ▸ ha)

/-! ### Properties of the synchronization effect -/

lemma darkClassOn_syncEffect (b : Bool) (env : BrowserEnv) :
    darkClassOn (syncEffect b env) = b :=
  mem_classListToggle env.bodyClasses darkModeBodyClassName b

lemma getItem_syncEffect (b : Bool) (env : BrowserEnv) :
    getItem (syncEffect b env).storage darkModePrefLocalStorageKey =
      some (if b then "true" else "false") :=
  getItem_setItem_self env.storage darkModePrefLocalStorageKey _

lemma prefersDark_syncEffect (b : Bool) (env : BrowserEnv) :
    (syncEffect b env).prefersDark = env.prefersDark := rfl

lemma syncEffect_of_synced (s : HookState) (h : Synced s) :
    syncEffect s.isDarkTheme s.env = s.env := by
  obtain ⟨hclass, hstore⟩ := h
  unfold syncEffect
  have h1 : classListToggle s.env.bodyClasses darkModeBodyClassName
      s.isDarkTheme = s.env.bodyClasses :=
    classListToggle_of_matching _ _ _ hclass
  have h2 : setItem s.env.storage darkModePrefLocalStorageKey
      (if s.isDarkTheme then "true" else "false") = s.env.storage :=
    setItem_of_getItem _ _ _ hstore
  cases s with
  | mk b env =>
    cases env
    simp_all

/-! ### The synchronization invariant -/

lemma synced_mount (env : BrowserEnv) : Synced (mount env) :=
  ⟨darkClassOn_syncEffect _ _, getItem_syncEffect _ _⟩

lemma synced_setIsDarkTheme (a : SetStateAction) (s : HookState)
    (h : Synced s) : Synced (setIsDarkTheme a s) := by
  unfold setIsDarkTheme
  by_cases hb : applyAction a s.isDarkTheme = s.isDarkTheme
  · simpa [hb] using h
  · simp only [if_neg hb]
    exact ⟨darkClassOn_syncEffect _ _, getItem_syncEffect _ _⟩

lemma synced_runFrom (s : HookState) (acts : List SetStateAction)
    (h : Synced s) : Synced (runFrom s acts) := by
  induction acts generalizing s with
  | nil => exact h
  | cons a rest ih => exact ih _ (synced_setIsDarkTheme a s h)

lemma synced_run (env : BrowserEnv) (acts : List SetStateAction) :
    Synced (run env acts) :=
  synced_runFrom (mount env) acts (synced_mount env)

/-! ### Further step lemmas -/

lemma isSome_getItem_syncEffect (b : Bool) (env : BrowserEnv) (k : String)
    (h : (getItem env.storage k).isSome) :
    (getItem (syncEffect b env).storage k).isSome :=
  isSome_getItem_setItem env.storage darkModePrefLocalStorageKey _ k h

lemma isSome_getItem_setIsDarkTheme (a : SetStateAction) (s : HookState)
    (k : String) (h : (getItem s.env.storage k).isSome) :
    (getItem (setIsDarkTheme a s).env.storage k).isSome := by
  unfold setIsDarkTheme
  by_cases hb : applyAction a s.isDarkTheme = s.isDarkTheme
  · simpa [hb] using h
  · simp only [if_neg hb]
    exact isSome_getItem_syncEffect _ s.env k h

lemma isSome_getItem_runFrom (s : HookState) (acts : List SetStateAction)
    (k : String) (h : (getItem s.env.storage k).isSome) :
    (getItem (runFrom s acts).env.storage k).isSome := by
  induction acts generalizing s with
  | nil => exact h
  | cons a rest ih =>
    exact ih _ (isSome_getItem_setIsDarkTheme a s k h)

lemma setIsDarkTheme_withSignal (a : SetStateAction) (p : Bool)
    (s : HookState) :
    setIsDarkTheme a (withSignal p s) = withSignal p (setIsDarkTheme a s) := by
  unfold setIsDarkTheme withSignal syncEffect
  by_cases h : applyAction a s.isDarkTheme = s.isDarkTheme <;> simp [h]

lemma useStateInit_snd (env : BrowserEnv) : (useStateInit env).2 = env := by
  unfold useStateInit
  by_cases h : getItem env.storage darkModePrefLocalStorageKey =
    some "true" <;> simp [h]

lemma mount_env (env : BrowserEnv) :
    (mount env).env = syncEffect (initialIsDarkTheme env) env := by
  show syncEffect (useStateInit env).1 (useStateInit env).2 = _
  rw [useStateInit_snd]
  rfl

lemma isDarkTheme_setIsDarkTheme (a : SetStateAction) (s : HookState) :
    (setIsDarkTheme a s).isDarkTheme = applyAction a s.isDarkTheme := by
  simp only [setIsDarkTheme]
  by_cases hb : applyAction a s.isDarkTheme = s.isDarkTheme
  · rw [if_pos hb]; exact hb.symm
  · rw [if_neg hb]

/-! ### Claim theorems -/

/-- Claim C1: the initial boolean is determined with priority — a stored
record decoding to exactly `"true"` forces `true`; any other situation
(record decoding to `"false"`, to anything else, or absent) falls back to
the system preference signal.  In particular a stored `"false"` together
with a dark system signal yields `true`. -/
theorem C1_initial_value_priority (env : BrowserEnv) :
    (getItem env.storage darkModePrefLocalStorageKey = some "true" →
      initialIsDarkTheme env = true) ∧
    (getItem env.storage darkModePrefLocalStorageKey ≠ some "true" →
      initialIsDarkTheme env = env.prefersDark) ∧
    initialIsDarkTheme
      ⟨[(darkModePrefLocalStorageKey, "false")], [], true⟩ = true := by
  refine ⟨fun h => ?_, fun h => ?_, by decide⟩
  · simp [initialIsDarkTheme, useStateInit, h]
  · simp [initialIsDarkTheme, useStateInit, h]

/-- Witness for C1 at concrete inputs: a stored `"true"` record gives
`true` regardless of a light system signal, and an empty storage with a
light system signal gives `false`. -/
theorem C1_witness :
    initialIsDarkTheme
        ⟨[(darkModePrefLocalStorageKey, "true")], [], false⟩ = true ∧
    initialIsDarkTheme ⟨[], [], false⟩ = false :=
  ⟨(C1_initial_value_priority
      ⟨[(darkModePrefLocalStorageKey, "true")], [], false⟩).1 (by decide),
   (C1_initial_value_priority ⟨[], [], false⟩).2.1 (by decide)⟩

/-- Claim C2: the synchronization effect puts the dark class on the
document root exactly when the value is `true` and writes `"true"` /
`"false"` to the fixed key; the effect also runs at the initial mount;
and after calling the setter with `true` (from a synchronized state) the
root carries the dark class and the key holds `"true"`. -/
theorem C2_sync_effect (b : Bool) (env : BrowserEnv) (s : HookState)
    (h : Synced s) :
    darkClassOn (syncEffect b env) = b ∧
    getItem (syncEffect b env).storage darkModePrefLocalStorageKey =
      some (if b then "true" else "false") ∧
    (mount env).env = syncEffect (initialIsDarkTheme env) env ∧
    darkClassOn (setIsDarkTheme (.direct true) s).env = true ∧
    getItem (setIsDarkTheme (.direct true) s).env.storage
      darkModePrefLocalStorageKey = some "true" := by
  have hs : Synced (setIsDarkTheme (.direct true) s) :=
    synced_setIsDarkTheme _ s h
  have hv : (setIsDarkTheme (.direct true) s).isDarkTheme = true :=
    isDarkTheme_setIsDarkTheme _ s
  refine ⟨darkClassOn_syncEffect b env, getItem_syncEffect b env,
    mount_env env, ?_, ?_⟩
  · rw [hs.1, hv]
  · rw [hs.2, hv]
    rfl

/-- Witness for C2 at a concrete synchronized state. -/
theorem C2_witness :
    darkClassOn
        (syncEffect true ⟨[], [], false⟩) = true ∧
    getItem
        (setIsDarkTheme (.direct true)
          ⟨false, ⟨[(darkModePrefLocalStorageKey, "false")], [], false⟩⟩
        ).env.storage darkModePrefLocalStorageKey = some "true" := by
  have h := C2_sync_effect true ⟨[], [], false⟩
    ⟨false, ⟨[(darkModePrefLocalStorageKey, "false")], [], false⟩⟩ (by decide)
  exact ⟨h.1, h.2.2.2.2⟩

/-- Claim C3: after initialization (mount followed by any sequence of
setter calls) the dark class is present on the document root exactly when
the in-memory value is `true`, and storage holds the string encoding of
the in-memory value. -/
theorem C3_invariant_after_init (env : BrowserEnv)
    (acts : List SetStateAction) :
    darkClassOn (run env acts).env = (run env acts).isDarkTheme ∧
    getItem (run env acts).env.storage darkModePrefLocalStorageKey =
      some (if (run env acts).isDarkTheme then "true" else "false") :=
  synced_run env acts

/-- Claim C4: the setter is idempotent — calling it twice with the same
boolean yields, after the second call, exactly the state (storage and
document classes included) reached after the first call. -/
theorem C4_setter_idempotent (v : Bool) (s : HookState) :
    setIsDarkTheme (.direct v) (setIsDarkTheme (.direct v) s) =
      setIsDarkTheme (.direct v) s := by
  unfold setIsDarkTheme applyAction
  by_cases h : v = s.isDarkTheme <;> simp [h]

/-- Claim C5: the setter accepts a direct boolean or an updater function;
the new in-memory value is `v` respectively `f b`, and in both cases the
environment afterwards is the one produced by the synchronization effect
for the new value. -/
theorem C5_setter_forms (f : Bool → Bool) (v : Bool) (s : HookState)
    (h : Synced s) :
    (setIsDarkTheme (.updater f) s).isDarkTheme = f s.isDarkTheme ∧
    (setIsDarkTheme (.direct v) s).isDarkTheme = v ∧
    (setIsDarkTheme (.updater f) s).env =
      syncEffect (f s.isDarkTheme) s.env ∧
    (setIsDarkTheme (.direct v) s).env = syncEffect v s.env := by
  refine ⟨isDarkTheme_setIsDarkTheme _ s, isDarkTheme_setIsDarkTheme _ s,
    ?_, ?_⟩
  · show (if f s.isDarkTheme = s.isDarkTheme then s
      else ⟨f s.isDarkTheme, syncEffect (f s.isDarkTheme) s.env⟩).env = _
    by_cases hb : f s.isDarkTheme = s.isDarkTheme
    · rw [if_pos hb, hb, syncEffect_of_synced s h]
    · rw [if_neg hb]
  · show (if v = s.isDarkTheme then s
      else ⟨v, syncEffect v s.env⟩).env = _
    by_cases hb : v = s.isDarkTheme
    · rw [if_pos hb, hb, syncEffect_of_synced s h]
    · rw [if_neg hb]

/-- Witness for C5: negating from a concrete synchronized dark state. -/
theorem C5_witness :
    (setIsDarkTheme (.updater not)
        ⟨true, ⟨[(darkModePrefLocalStorageKey, "true")],
          [darkModeBodyClassName], true⟩⟩).isDarkTheme = false ∧
    (setIsDarkTheme (.direct false)
        ⟨true, ⟨[(darkModePrefLocalStorageKey, "true")],
          [darkModeBodyClassName], true⟩⟩).isDarkTheme = false := by
  have h := C5_setter_forms not false
    ⟨true, ⟨[(darkModePrefLocalStorageKey, "true")],
      [darkModeBodyClassName], true⟩⟩ (by decide)
  exact ⟨h.1, h.2.1⟩

/-- Claim C6: a run never deletes any stored record (every key present
before stays present), and the fixed key only ever holds the literal
string `"true"` or `"false"` after any run. -/
theorem C6_storage_discipline (env : BrowserEnv)
    (acts : List SetStateAction) (k : String)
    (h : (getItem env.storage k).isSome) :
    (getItem (run env acts).env.storage k).isSome ∧
    (getItem (run env acts).env.storage darkModePrefLocalStorageKey =
        some "true" ∨
      getItem (run env acts).env.storage darkModePrefLocalStorageKey =
        some "false") := by
  constructor
  · have h1 : (getItem (mount env).env.storage k).isSome := by
      rw [mount_env]
      exact isSome_getItem_syncEffect _ _ k h
    exact isSome_getItem_runFrom (mount env) acts k h1
  · have hs := (synced_run env acts).2
    cases hb : (run env acts).isDarkTheme
    · right; rw [hs, hb]; rfl
    · left; rw [hs, hb]; rfl

/-- Witness for C6: an unrelated pre-existing key survives a run that
toggles the theme once. -/
theorem C6_witness :
    (getItem
        (run ⟨[("other_key", "kept")], [], false⟩
          [.direct true]).env.storage "other_key").isSome ∧
    (getItem
        (run ⟨[("other_key", "kept")], [], false⟩
          [.direct true]).env.storage darkModePrefLocalStorageKey =
        some "true" ∨
      getItem
        (run ⟨[("other_key", "kept")], [], false⟩
          [.direct true]).env.storage darkModePrefLocalStorageKey =
        some "false") :=
  C6_storage_discipline ⟨[("other_key", "kept")], [], false⟩
    [.direct true] "other_key" (by decide)

/-- Claim C7: the system preference signal is not read after
initialization — changing it commutes with every subsequent sequence of
operations, so the in-memory value, the storage and the document classes
evolve identically. -/
theorem C7_signal_only_read_at_init (s : HookState) (p : Bool)
    (acts : List SetStateAction) :
    runFrom (withSignal p s) acts = withSignal p (runFrom s acts) ∧
    (runFrom (withSignal p s) acts).isDarkTheme =
      (runFrom s acts).isDarkTheme ∧
    (runFrom (withSignal p s) acts).env.storage =
      (runFrom s acts).env.storage ∧
    (runFrom (withSignal p s) acts).env.bodyClasses =
      (runFrom s acts).env.bodyClasses := by
  have key : runFrom (withSignal p s) acts = withSignal p (runFrom s acts) := by
    induction acts generalizing s with
    | nil => rfl
    | cons a rest ih =>
      show runFrom (setIsDarkTheme a (withSignal p s)) rest = _
      rw [setIsDarkTheme_withSignal, ih]
      rfl
  refine ⟨key, ?_, ?_, ?_⟩ <;> rw [key] <;> rfl

/-- Claim C8: reading the current preference returns the in-memory
boolean and leaves the in-memory value, the stored record and the
document classes unchanged. -/
theorem C8_read_no_side_effects (s : HookState) :
    (getCurrentPreference s).1 = s.isDarkTheme ∧
    (getCurrentPreference s).2.isDarkTheme = s.isDarkTheme ∧
    (getCurrentPreference s).2.env.storage = s.env.storage ∧
    (getCurrentPreference s).2.env.bodyClasses = s.env.bodyClasses ∧
    (getCurrentPreference s).2 = s :=
  ⟨rfl, rfl, rfl, rfl, rfl⟩

/-- Claim C9: initialization compares the stored record with the exact
literal `"true"`; any other stored string behaves exactly like an absent
record and falls back to the system signal. -/
theorem C9_strict_string_comparison (env : BrowserEnv) (v : String)
    (hv : getItem env.storage darkModePrefLocalStorageKey = some v)
    (hne : v ≠ "true") :
    initialIsDarkTheme env = env.prefersDark ∧
    initialIsDarkTheme { env with storage := [] } = env.prefersDark := by
  have hcond : getItem env.storage darkModePrefLocalStorageKey ≠
      some "true" := by
    rw [hv]
    exact fun hcontra => hne (Option.some.inj hcontra)
  constructor
  · simp [initialIsDarkTheme, useStateInit, hcond]
  · simp [initialIsDarkTheme, useStateInit, getItem]

/-- Witness for C9: a stored value of `"TRUE"` (wrong case) together with
a dark system signal gives `true` only via the fallback. -/
theorem C9_witness :
    initialIsDarkTheme ⟨[(darkModePrefLocalStorageKey, "TRUE")], [], true⟩ =
      (⟨[(darkModePrefLocalStorageKey, "TRUE")], [], true⟩ :
        BrowserEnv).prefersDark :=
  (C9_strict_string_comparison
    ⟨[(darkModePrefLocalStorageKey, "TRUE")], [], true⟩ "TRUE"
    (by decide) (by decide)).1

/-- Claim C10: computing the initial value is read-only — the `useState`
init function returns the environment unchanged, and the first mutation
of storage and of the document classes is the synchronization effect run
at mount, applied to the untouched environment. -/
theorem C10_init_read_only (env : BrowserEnv) :
    (useStateInit env).2 = env ∧
    (useStateInit env).2.storage = env.storage ∧
    (useStateInit env).2.bodyClasses = env.bodyClasses ∧
    (mount env).env = syncEffect (initialIsDarkTheme env) env := by
  have h2 : (useStateInit env).2 = env := useStateInit_snd env
  exact ⟨h2, by rw [h2], by rw [h2], mount_env env⟩

end MLflowDarkTheme
